import Mathlib

/-!
Verification development for the pdvmercado point-of-sale terminal's
offline-first cache and synchronization engine.

The definitions below are a shallow embedding of the TypeScript services:
`LocalCacheService` (src/main/services/LocalCacheService.ts),
`PdvApiService` (src/main/services/PdvApiService.ts),
`ProductService` (both variants: the HTTP/cache-backed one and the
`NetworkDatabaseService`-backed one), and
`NetworkDatabaseService` (src/main/services/NetworkDatabaseService.ts)
including the `venda_item_estoque` trigger and the CHECK constraints of
`createOptimizedSchema`.  SQLite rows are lists of structures, REAL money
columns are rationals, explicit BEGIN/COMMIT/ROLLBACK blocks become
all-or-nothing state transitions, and sequencing-sensitive methods are
additionally given as explicit event traces.
-/

/-- Row of the `produtos` / `cache_produtos` tables. -/
structure Produto where
  id : Nat
  codigo : String
  ean13 : Option String
  descricao : String
  preco : ℚ
  estoque : ℚ
  ativo : Bool
  deriving DecidableEq, Repr

/-- WHERE clause of `findProductByCode`:
`(codigo = ? OR ean13 = ?) AND ativo = true` (same SQL in
`LocalCacheService.findProductByCode` and
`NetworkDatabaseService.findProductByCode`). -/
def matchesCode (codigo : String) (p : Produto) : Bool :=
  (p.codigo == codigo || p.ean13 == some codigo) && p.ativo

/-- `findProductByCode` with `LIMIT 1`: first active row matching either
natural key. -/
def findProductByCode (codigo : String) (ps : List Produto) : Option Produto :=
  ps.find? (matchesCode codigo)

/-- One element of `vendaData.items` as received by
`ProductService.createSale`. -/
structure ItemVenda where
  codigo : String
  quantidade : ℚ
  preco_unitario : ℚ
  deriving DecidableEq, Repr

/-- JavaScript truthiness test
`!item.codigo || !item.quantidade || !item.preco_unitario` from the
validation loop (negated: the item passes the field check). -/
def itemTruthy (it : ItemVenda) : Bool :=
  it.codigo != "" && it.quantidade != 0 && it.preco_unitario != 0

/-- JavaScript `String.prototype.trim` as used by
`ProductService.findByCode(codigo.trim())`: strip leading and trailing
whitespace. -/
def jsTrim (s : String) : String :=
  ⟨((s.data.dropWhile Char.isWhitespace).reverse.dropWhile Char.isWhitespace).reverse⟩

/-- Errors thrown along the sale-creation paths. -/
inductive VendaError where
  | emptyItems
  | invalidItem
  | notFound (codigo : String)
  | insufficientStock (codigo : String)
  | missingProduct
  | checkViolation
  | apiError
  deriving DecidableEq, Repr

/-- Item of the `salePayload` built by `PdvApiService.createSale`. -/
structure PayloadItem where
  codigo : String
  quantidade : ℚ
  precoUnitario : ℚ
  deriving DecidableEq, Repr

/-- The `salePayload` object of `PdvApiService.createSale`. -/
structure SalePayload where
  subtotal : ℚ
  desconto : ℚ
  total : ℚ
  formaPagamento : String
  status : String
  caixaId : String
  items : List PayloadItem
  deriving DecidableEq, Repr

/-- Construction of `salePayload` in `PdvApiService.createSale`:
subtotal and total are both `items.reduce((sum, item) =>
sum + item.quantidade * item.preco_unitario, 0)`. -/
def mkSalePayload (caixaId : String) (items : List ItemVenda) : SalePayload :=
  { subtotal := items.foldl (fun sum it => sum + it.quantidade * it.preco_unitario) 0
    desconto := 0
    total := items.foldl (fun sum it => sum + it.quantidade * it.preco_unitario) 0
    formaPagamento := "DINHEIRO"
    status := "FINALIZADA"
    caixaId := caixaId
    items := items.map (fun it => ⟨it.codigo, it.quantidade, it.preco_unitario⟩) }

/-- Data serialized into `vendas_pendentes.venda_data`: the online failure
fallback stores the raw `vendaData` while the offline branch stores the
prepared `salePayload`. -/
inductive QueuedData where
  | payload (p : SalePayload)
  | raw (items : List ItemVenda)
  deriving DecidableEq, Repr

/-- Status column of `vendas_pendentes`. -/
inductive SaleStatus where
  | pendente
  | sincronizada
  | erro
  deriving DecidableEq, Repr

/-- Row of the `vendas_pendentes` queue table. -/
structure PendingSale where
  id : Nat
  venda_data : QueuedData
  status : SaleStatus
  tentativas : Nat
  error_message : Option String
  deriving DecidableEq, Repr

/-- AUTOINCREMENT primary key: one more than the largest id in use. -/
def nextPendingId (q : List PendingSale) : Nat :=
  (q.map (fun s => s.id)).foldl max 0 + 1

/-- `LocalCacheService.addPendingSale`: INSERT with status 'PENDENTE',
`tentativas` defaulting to 0. -/
def addPendingSale (d : QueuedData) (q : List PendingSale) : List PendingSale :=
  q ++ [⟨nextPendingId q, d, .pendente, 0, none⟩]

/-- `LocalCacheService.getPendingSales`:
`SELECT * FROM vendas_pendentes WHERE status = 'PENDENTE' ORDER BY
created_at ASC` (the list is kept in insertion order). -/
def getPendingSales (q : List PendingSale) : List PendingSale :=
  q.filter (fun s => s.status == .pendente)

/-- `LocalCacheService.markSaleAsSynced`: set status 'SINCRONIZADA'. -/
def markSaleAsSynced (id : Nat) (q : List PendingSale) : List PendingSale :=
  q.map (fun s => if s.id = id then { s with status := .sincronizada } else s)

/-- `LocalCacheService.markSaleAsError`:
`SET status = 'ERRO', tentativas = tentativas + 1, error_message = ?`. -/
def markSaleAsError (id : Nat) (msg : String) (q : List PendingSale) : List PendingSale :=
  q.map (fun s =>
    if s.id = id then
      { s with status := .erro, tentativas := s.tentativas + 1, error_message := some msg }
    else s)

/-- Item after the validation loop of the `NetworkDatabaseService`-backed
`ProductService.createSale`: `{ produto_id, quantidade, preco_unitario }`. -/
structure ProcessedItem where
  produto_id : Nat
  quantidade : ℚ
  preco_unitario : ℚ
  deriving DecidableEq, Repr

/-- Validation loop of `ProductService.createSale`
(NetworkDatabaseService variant, same checks as the cache variant): each
item must have truthy `codigo`, `quantidade`, `preco_unitario`; the
product must be found by `findByCode(item.codigo)` (which trims the code);
and `produto.estoque < item.quantidade` raises the insufficient-stock
error.  Surviving items become `processedItems`. -/
def processItems (ps : List Produto) : List ItemVenda → Except VendaError (List ProcessedItem)
  | [] => .ok []
  | it :: rest =>
    if itemTruthy it = false then .error .invalidItem
    else
      match findProductByCode (jsTrim it.codigo) ps with
      | none => .error (.notFound it.codigo)
      | some produto =>
        if produto.estoque < it.quantidade then .error (.insufficientStock it.codigo)
        else
          match processItems ps rest with
          | .error e => .error e
          | .ok pis => .ok (⟨produto.id, it.quantidade, it.preco_unitario⟩ :: pis)

/-- Row of the `venda_items` table (denormalized line of a sale). -/
structure VendaItem where
  venda_id : Nat
  produto_id : Nat
  codigo_produto : String
  descricao_produto : String
  quantidade : ℚ
  preco_unitario : ℚ
  subtotal : ℚ
  deriving DecidableEq, Repr

/-- Row of the `vendas` table. -/
structure VendaRow where
  id : Nat
  numero_venda : Nat
  subtotal : ℚ
  desconto : ℚ
  total : ℚ
  forma_pagamento : String
  status : String
  caixa_id : String
  sincronizado : Bool
  deriving DecidableEq, Repr

/-- The `Sale` object returned by `createSale` (a `vendas` row plus its
`items`). -/
structure Venda where
  id : Nat
  numero_venda : Nat
  subtotal : ℚ
  desconto : ℚ
  total : ℚ
  forma_pagamento : String
  status : String
  caixa_id : String
  sincronizado : Bool
  items : List VendaItem
  deriving DecidableEq, Repr

/-- Projection of a returned sale onto its stored `vendas` row. -/
def vendaRowOf (v : Venda) : VendaRow :=
  ⟨v.id, v.numero_venda, v.subtotal, v.desconto, v.total,
   v.forma_pagamento, v.status, v.caixa_id, v.sincronizado⟩

/-- State of the active SQLite store of `NetworkDatabaseService`. -/
structure DbState where
  produtos : List Produto
  vendas : List VendaRow
  venda_items : List VendaItem
  deriving DecidableEq, Repr

/-- `SELECT COALESCE(MAX(numero_venda), 0) + 1 FROM vendas`. -/
def nextNumeroVenda (vendas : List VendaRow) : Nat :=
  (vendas.map (fun v => v.numero_venda)).foldl max 0 + 1

/-- AUTOINCREMENT id for the `vendas` insert (`lastID`). -/
def nextVendaId (vendas : List VendaRow) : Nat :=
  (vendas.map (fun v => v.id)).foldl max 0 + 1

/-- The `venda_item_estoque` trigger: AFTER INSERT ON venda_items,
`UPDATE produtos SET estoque = estoque - NEW.quantidade
WHERE id = NEW.produto_id`. -/
def applyTrigger (pid : Nat) (q : ℚ) (ps : List Produto) : List Produto :=
  ps.map (fun p => if p.id = pid then { p with estoque := p.estoque - q } else p)

/-- Insertion loop of `NetworkDatabaseService.createSale`: for each item,
fetch `codigo`/`descricao` of the product (a missing row aborts the
statement), insert the `venda_items` row subject to the schema CHECK
constraints (`quantidade > 0`, `preco_unitario >= 0`, `subtotal >= 0`),
and fire the `venda_item_estoque` trigger, whose stock decrement is itself
subject to `CHECK(estoque >= 0)` on `produtos`; any violation makes the
whole transaction fail. -/
def insertVendaItems (vid : Nat) :
    List ProcessedItem → List Produto → Except VendaError (List Produto × List VendaItem)
  | [], ps => .ok (ps, [])
  | it :: rest, ps =>
    match ps.find? (fun p => p.id == it.produto_id) with
    | none => .error .missingProduct
    | some produto =>
      if 0 < it.quantidade ∧ 0 ≤ it.preco_unitario ∧ 0 ≤ it.quantidade * it.preco_unitario then
        if ∀ p ∈ ps, p.id = it.produto_id → 0 ≤ p.estoque - it.quantidade then
          match insertVendaItems vid rest (applyTrigger it.produto_id it.quantidade ps) with
          | .error e => .error e
          | .ok (ps', lines) =>
            .ok (ps', ⟨vid, it.produto_id, produto.codigo, produto.descricao,
                       it.quantidade, it.preco_unitario,
                       it.quantidade * it.preco_unitario⟩ :: lines)
        else .error .checkViolation
      else .error .checkViolation

/-- `NetworkDatabaseService.createSale`: subtotal and total are
`items.reduce((sum, item) => sum + item.quantidade * item.preco_unitario, 0)`;
the sale row, its lines and the trigger's stock decrements execute inside
one BEGIN/COMMIT block, and any failure rolls the whole transaction back
(the error result is paired with the unchanged state). -/
def dbCreateSale (caixaId : String) (isOnline : Bool) (st : DbState)
    (items : List ProcessedItem) : Except VendaError Venda × DbState :=
  let subtotal := items.foldl (fun sum it => sum + it.quantidade * it.preco_unitario) 0
  let total := subtotal
  let vid := nextVendaId st.vendas
  let numero := nextNumeroVenda st.vendas
  if 0 ≤ subtotal ∧ 0 ≤ total then
    match insertVendaItems vid items st.produtos with
    | .error e => (.error e, st)
    | .ok (ps', lines) =>
      let v : Venda := ⟨vid, numero, subtotal, 0, total, "DINHEIRO", "FINALIZADA",
                        caixaId, isOnline, lines⟩
      (.ok v, ⟨ps', st.vendas ++ [vendaRowOf v], st.venda_items ++ lines⟩)
  else (.error .checkViolation, st)

/-- `ProductService.createSale` (NetworkDatabaseService variant):
reject empty item lists, run the validation loop, then call
`NetworkDatabaseService.createSale`; a validation failure throws before
any write happens. -/
def psDbCreateSale (caixaId : String) (isOnline : Bool) (st : DbState)
    (items : List ItemVenda) : Except VendaError Venda × DbState :=
  if items.isEmpty then (.error .emptyItems, st)
  else
    match processItems st.produtos items with
    | .error e => (.error e, st)
    | .ok pis => dbCreateSale caixaId isOnline st pis

/-- Result object of `HttpApiService` calls. -/
structure ApiResponse (α : Type) where
  success : Bool
  data : Option α
  error : Option String
  deriving DecidableEq, Repr

/-- State of one `LocalCacheService` (the cache SQLite file): product
mirror, pending-sale queue, the `last_sync_time` config row, and the
`sync_log` rows (tipo, status). -/
structure CacheState where
  cache_produtos : List Produto
  vendas_pendentes : List PendingSale
  lastSyncTime : Option String
  sync_log : List (String × String)
  deriving DecidableEq, Repr

/-- State of one `PdvApiService`: its `LocalCacheService` plus the
`isOnline` flag. -/
structure PdvState where
  cache : CacheState
  isOnline : Bool
  deriving DecidableEq, Repr

/-- `LocalCacheService.syncProdutos` (successful path): inside one
transaction, `DELETE FROM cache_produtos` then insert each given product;
afterwards set `lastSyncTime` (`updateSyncTime`) and append a SUCCESS row
to `sync_log`. -/
def syncProdutos (produtos : List Produto) (now : String) (st : CacheState) : CacheState :=
  { st with
    cache_produtos := produtos.foldl (fun acc p => acc ++ [p]) []
    lastSyncTime := some now
    sync_log := st.sync_log ++ [("PRODUTOS", "SUCCESS")] }

/-- `PdvApiService.syncProducts(force)`: when `force` is false the request
carries the cached `ultimaSync` timestamp (asking the server for a delta);
a successful response is applied through `syncProdutos` and sets
`isOnline = true`; otherwise `isOnline` drops to false. -/
def syncProducts (force : Bool) (api : Option String → ApiResponse (List Produto))
    (now : String) (st : PdvState) : Bool × PdvState :=
  let ultimaSync := if force then none else st.cache.lastSyncTime
  let resp := api ultimaSync
  match resp.success, resp.data with
  | true, some ps => (true, { st with cache := syncProdutos ps now st.cache, isOnline := true })
  | _, _ => (false, { st with isOnline := false })

/-- `PdvApiService.syncPendingSales`: fetch the PENDENTE entries once,
POST each entry's `venda_data` to `/vendas`; a successful response marks
the entry SINCRONIZADA, any failure marks it ERRO with the reported
message; the loop never aborts early. -/
def syncPendingSales (post : QueuedData → ApiResponse Venda) (st : PdvState) : PdvState :=
  (getPendingSales st.cache.vendas_pendentes).foldl
    (fun acc s =>
      let resp := post s.venda_data
      if resp.success then
        { acc with cache :=
          { acc.cache with vendas_pendentes := markSaleAsSynced s.id acc.cache.vendas_pendentes } }
      else
        { acc with cache :=
          { acc.cache with vendas_pendentes :=
            markSaleAsError s.id (resp.error.getD "Erro desconhecido") acc.cache.vendas_pendentes } })
    st

/-- `PdvApiService.forceSync`: run `syncProducts(true)`, then
`syncPendingSales`, and return the boolean produced by `syncProducts`. -/
def forceSync (api : Option String → ApiResponse (List Produto))
    (post : QueuedData → ApiResponse Venda) (now : String) (st : PdvState) : Bool × PdvState :=
  let r := syncProducts true api now st
  (r.1, syncPendingSales post r.2)

/-- `PdvApiService.findProductByCode`: consult the local cache first; on a
cache miss, when `isOnline`, issue `GET /produtos/codigo/:codigo` and
return its product when `response.success && response.data`; otherwise
report not found. -/
def pdvFindProductByCode (codigo : String) (api : String → ApiResponse Produto)
    (st : PdvState) : Option Produto :=
  match findProductByCode codigo st.cache.cache_produtos with
  | some p => some p
  | none =>
    if st.isOnline then
      let r := api codigo
      if r.success && r.data.isSome then r.data else none
    else none

/-- `PdvApiService.createSale`: build `salePayload`; when online POST it
to `/vendas` and return the server's sale, enqueueing the raw `vendaData`
and rethrowing if the POST fails; when offline enqueue the payload and
return the locally fabricated sale (`Date.now()` identifiers,
`sincronizado: false`). -/
def pdvCreateSale (caixaId : String) (nowMs : Nat) (post : QueuedData → ApiResponse Venda)
    (items : List ItemVenda) (st : PdvState) : Except VendaError Venda × PdvState :=
  let payload := mkSalePayload caixaId items
  if st.isOnline then
    let resp := post (.payload payload)
    match resp.success, resp.data with
    | true, some v => (.ok v, st)
    | _, _ =>
      (.error .apiError,
       { st with cache :=
         { st.cache with vendas_pendentes := addPendingSale (.raw items) st.cache.vendas_pendentes } })
  else
    (.ok ⟨nowMs, nowMs, payload.subtotal, payload.desconto, payload.total,
          payload.formaPagamento, payload.status, caixaId, false, []⟩,
     { st with cache :=
       { st.cache with vendas_pendentes := addPendingSale (.payload payload) st.cache.vendas_pendentes } })

/-- Validation loop of `ProductService.createSale` (PdvApiService
variant): same field/existence/stock checks as `processItems`, but the
product lookup goes through `PdvApiService.findProductByCode`. -/
def validateItemsApi (api : String → ApiResponse Produto) (st : PdvState) :
    List ItemVenda → Except VendaError Unit
  | [] => .ok ()
  | it :: rest =>
    if itemTruthy it = false then .error .invalidItem
    else
      match pdvFindProductByCode (jsTrim it.codigo) api st with
      | none => .error (.notFound it.codigo)
      | some produto =>
        if produto.estoque < it.quantidade then .error (.insufficientStock it.codigo)
        else validateItemsApi api st rest

/-- `ProductService.createSale` (PdvApiService variant): reject empty item
lists, run the validation loop, and only then call
`PdvApiService.createSale`; a validation failure throws before anything is
written or queued. -/
def psApiCreateSale (caixaId : String) (nowMs : Nat) (api : String → ApiResponse Produto)
    (post : QueuedData → ApiResponse Venda) (items : List ItemVenda) (st : PdvState) :
    Except VendaError Venda × PdvState :=
  if items.isEmpty then (.error .emptyItems, st)
  else
    match validateItemsApi api st items with
    | .error e => (.error e, st)
    | .ok _ => pdvCreateSale caixaId nowMs post items st

/-- Storage events issued by `LocalCacheService.syncProdutos`, in program
order. -/
inductive CacheDbEvent where
  | beginTx
  | deleteAllProdutos
  | insertProduto (p : Produto)
  | commitTx
  | rollbackTx
  | runUpdateSyncTime
  | insertSyncLog (tipo : String) (status : String)
  deriving DecidableEq, Repr

/-- Event trace of a successful `LocalCacheService.syncProdutos` run:
BEGIN, DELETE, the inserts, COMMIT, then `updateSyncTime` and the
`sync_log` insert. -/
def syncProdutosTrace (produtos : List Produto) : List CacheDbEvent :=
  [.beginTx, .deleteAllProdutos] ++ produtos.map .insertProduto
    ++ [.commitTx, .runUpdateSyncTime, .insertSyncLog "PRODUTOS" "SUCCESS"]

/-- Events of a trace that happen inside the transaction (strictly before
COMMIT). -/
def preCommitEvents (tr : List CacheDbEvent) : List CacheDbEvent :=
  tr.takeWhile (fun e => !(e == .commitTx))

/-- Steps of the OFFLINE-to-ONLINE reconnection path of
`NetworkDatabaseService`, in program order. -/
inductive ReconnectEvent where
  | closeBackup
  | openPrimary
  | applySchema
  | markOnline
  | replayPending
  deriving DecidableEq, Repr

/-- Event trace of `NetworkDatabaseService.connectToPrimary`: open the
primary store, apply pragmas/schema/indexes/seed, set `isOnline = true`
and `setOfflineMode(false)`, and only then (for clients) call
`syncFromBackupToPrimary`. -/
def connectToPrimaryTrace (isClient : Bool) : List ReconnectEvent :=
  [.openPrimary, .applySchema, .markOnline] ++ (if isClient then [.replayPending] else [])

/-- Event trace of one successful firing of the
`startReconnectionAttempts` timer: close the backup connection, then run
`connectToPrimary`. -/
def reconnectionAttemptTrace (isClient : Bool) : List ReconnectEvent :=
  .closeBackup :: connectToPrimaryTrace isClient

/-- Rows selected by the replay query of
`NetworkDatabaseService.syncFromBackupToPrimary`:
`SELECT * FROM vendas WHERE id NOT IN (SELECT id FROM vendas WHERE id IN
(SELECT id FROM vendas))`. -/
def syncBackupSelected (vendas : List VendaRow) : List VendaRow :=
  vendas.filter (fun v => !((vendas.map (fun w => w.id)).contains v.id))

/-- A money amount sits on the currency's minor unit: it is a whole
number of hundredths. -/
def IsCentMultiple (x : ℚ) : Prop := ∃ n : ℤ, x = n / 100

/-- Total of the sale returned by a `createSale` run, when successful. -/
def resultTotal (r : Except VendaError Venda × DbState) : Option ℚ :=
  match r.1 with
  | .ok v => some v.total
  | .error _ => none

/-- Pairs (produto_id, quantidade) of a processed item list. -/
def itemPairs (its : List ProcessedItem) : List (Nat × ℚ) :=
  its.map (fun it => (it.produto_id, it.quantidade))

/-- Pairs (produto_id, quantidade) of a list of sale lines. -/
def linePairs (ls : List VendaItem) : List (Nat × ℚ) :=
  ls.map (fun l => (l.produto_id, l.quantidade))

/-- Total quantity sold of one product across the given
(produto_id, quantidade) pairs. -/
def soldQty (pid : Nat) (prs : List (Nat × ℚ)) : ℚ :=
  ((prs.filter (fun pr => pr.1 == pid)).map (fun pr => pr.2)).sum

/-- Accumulated effect of firing the `venda_item_estoque` trigger once per
item, in order. -/
def foldTrigger (its : List ProcessedItem) (ps : List Produto) : List Produto :=
  its.foldl (fun a it => applyTrigger it.produto_id it.quantidade a) ps

/-- The `venda_data` of the most recently queued sale — exactly what a
later `syncPendingSales` will POST for it. -/
def lastQueuedData (q : List PendingSale) : Option QueuedData :=
  q.getLast?.map (fun s => s.venda_data)

/-- A seeded catalog product (price 8.50, stock 10), as in the spec's
example scenario. -/
def exProdFeijao : Produto :=
  ⟨3, "123456789", some "7891000053508", "Feijao Carioca 1kg", 17/2, 10, true⟩

/-- A product only known to the remote API, not cached. -/
def exProdApi : Produto := ⟨99, "999", none, "Produto Remoto", 3, 5, true⟩

/-- A previously cached product that the next sync response omits. -/
def exProdVelho : Produto := ⟨7, "77", none, "Produto Antigo", 1, 1, true⟩

/-- The single product of the next sync response. -/
def exProdNovo : Produto := ⟨8, "88", none, "Produto Novo", 2, 2, true⟩

/-- Database holding just the seeded product, no sales. -/
def exDb1 : DbState := ⟨[exProdFeijao], [], []⟩

/-- A sale item: two units at 8.50. -/
def exItem2 : ItemVenda := ⟨"123456789", 2, 17/2⟩

/-- A sale item: half a unit (quantidade is REAL) at a price of 0.05. -/
def exItemMeio : ItemVenda := ⟨"123456789", 1/2, 1/20⟩

/-- A sale item requesting more than the cached stock of 10. -/
def exItemExcesso : ItemVenda := ⟨"123456789", 11, 17/2⟩

/-- A malformed sale item (empty `codigo` is falsy). -/
def exItemSemCodigo : ItemVenda := ⟨"", 1, 1⟩

/-- The sale produced by selling `exItem2` against `exDb1`. -/
def exVenda2 : Venda :=
  ⟨1, 1, 17, 0, 17, "DINHEIRO", "FINALIZADA", "CAIXA01", true,
   [⟨1, 3, "123456789", "Feijao Carioca 1kg", 2, 17/2, 17⟩]⟩

/-- `exDb1` after that sale: stock decremented to 8, one sale row, one
line row. -/
def exDbAfter2 : DbState :=
  ⟨[{ exProdFeijao with estoque := 8 }], [vendaRowOf exVenda2],
   [⟨1, 3, "123456789", "Feijao Carioca 1kg", 2, 17/2, 17⟩]⟩

/-- Serialized payload of a queued sale. -/
def exData3 : QueuedData := .payload (mkSalePayload "CAIXA01" [exItem2])

/-- A queue holding one PENDENTE sale. -/
def exQueue3 : List PendingSale := addPendingSale exData3 []

/-- The payload of the C10 scenario. -/
def exPayload10 : SalePayload := mkSalePayload "CAIXA01" [exItem2]

/-- The same sale queued twice (a retry after an ambiguous failure). -/
def exQueue10 : List PendingSale :=
  addPendingSale (.payload exPayload10) (addPendingSale (.payload exPayload10) [])

/-- Sync endpoint that answers an incremental request (ultimaSync of
2026-01-01) with a delta containing only `exProdNovo`. -/
def exApi4 : Option String → ApiResponse (List Produto) := fun o =>
  if o == some "2026-01-01" then ⟨true, some [exProdNovo], none⟩
  else ⟨false, none, some "unexpected request"⟩

/-- Cache state with an old product and a recorded last sync time. -/
def exSt4 : PdvState := ⟨⟨[exProdVelho], [], some "2026-01-01", []⟩, true⟩

/-- Sync endpoint that always succeeds (with a one-product catalog). -/
def exApi6 : Option String → ApiResponse (List Produto) :=
  fun _ => ⟨true, some [exProdFeijao], none⟩

/-- Sale-submission endpoint that always fails. -/
def exPostFail : QueuedData → ApiResponse Venda :=
  fun _ => ⟨false, none, some "HTTP 500"⟩

/-- Online state with one PENDENTE sale awaiting push. -/
def exSt6 : PdvState := ⟨⟨[], [⟨1, exData3, .pendente, 0, none⟩], none, []⟩, true⟩

/-- Product endpoint knowing only code "999". -/
def exApi7 : String → ApiResponse Produto := fun c =>
  if c == "999" then ⟨true, some exProdApi, none⟩ else ⟨false, none, none⟩

/-- Online state with an empty product cache. -/
def exStOnlineEmpty : PdvState := ⟨⟨[], [], none, []⟩, true⟩

/-- Online state whose cache holds the seeded product. -/
def exStCache : PdvState := ⟨⟨[exProdFeijao], [], none, []⟩, true⟩

/-- Offline state with an empty product cache. -/
def exStOffline : PdvState := ⟨⟨[], [], none, []⟩, false⟩

theorem markSaleAsError_status (id : Nat) (msg : String) (q : List PendingSale) :
    (markSaleAsError id msg q).map (fun s => s.status) =
      q.map (fun s => if s.id = id then SaleStatus.erro else s.status) := by
  induction q with
  | nil => rfl
  | cons a t ih =>
    by_cases h : a.id = id <;> simp [markSaleAsError, h] <;>
      simpa [markSaleAsError] using ih

theorem markSaleAsError_tentativas (id : Nat) (msg : String) (q : List PendingSale) :
    (markSaleAsError id msg q).map (fun s => s.tentativas) =
      q.map (fun s => if s.id = id then s.tentativas + 1 else s.tentativas) := by
  induction q with
  | nil => rfl
  | cons a t ih =>
    by_cases h : a.id = id <;> simp [markSaleAsError, h] <;>
      simpa [markSaleAsError] using ih

theorem getPendingSales_markSaleAsError (id : Nat) (msg : String) (q : List PendingSale) :
    getPendingSales (markSaleAsError id msg q) =
      (getPendingSales q).filter (fun s => !(s.id == id)) := by
  induction q with
  | nil => rfl
  | cons a t ih =>
    by_cases h : a.id = id
    · by_cases hs : a.status = .pendente <;>
        simp [markSaleAsError, getPendingSales, List.filter_cons, h, hs] <;>
        simpa [markSaleAsError, getPendingSales] using ih
    · by_cases hs : a.status = .pendente <;>
        simp [markSaleAsError, getPendingSales, List.filter_cons, h, hs] <;>
        simpa [markSaleAsError, getPendingSales] using ih

/-- C3: the claim says a failed push increments the attempt count but
leaves the entry PENDING (still returned by `getPendingSales`) until a
caller-defined maximum is exceeded.  In fact one single `markSaleAsError`
already sets the status to ERRO (with `tentativas = 1`, below any retry
threshold) and the entry immediately disappears from `getPendingSales`. -/
theorem c3_markFailed_counterexample :
    markSaleAsError 1 "timeout" exQueue3 =
      [⟨1, exData3, .erro, 1, some "timeout"⟩] ∧
    getPendingSales (markSaleAsError 1 "timeout" exQueue3) = [] := by
  constructor <;>
    simp [markSaleAsError, getPendingSales, exQueue3, addPendingSale, nextPendingId]

/-- C3 (amended): `markSaleAsError` increments `tentativas` and
immediately sets the status to ERRO, so the entry is excluded from
`getPendingSales` after its first failure; there is no PENDING retry state
and no attempt-count threshold. -/
theorem c3_markFailed_amended (id : Nat) (msg : String) (q : List PendingSale) :
    (markSaleAsError id msg q).map (fun s => s.status) =
      q.map (fun s => if s.id = id then SaleStatus.erro else s.status) ∧
    (markSaleAsError id msg q).map (fun s => s.tentativas) =
      q.map (fun s => if s.id = id then s.tentativas + 1 else s.tentativas) ∧
    getPendingSales (markSaleAsError id msg q) =
      (getPendingSales q).filter (fun s => !(s.id == id)) :=
  ⟨markSaleAsError_status id msg q, markSaleAsError_tentativas id msg q,
   getPendingSales_markSaleAsError id msg q⟩

theorem syncBackupSelected_nil (vs : List VendaRow) : syncBackupSelected vs = [] := by
  unfold syncBackupSelected
  rw [List.filter_eq_nil_iff]
  intro v hv
  have hmem : v.id ∈ vs.map (fun w => w.id) := List.mem_map_of_mem _ hv
  simp [List.contains, List.elem_iff, hmem]

/-- C5: the claim says the reconnection replays the pending operations
accumulated offline before marking the connection ONLINE.  In the code,
`connectToPrimary` sets `isOnline = true` (and clears offline mode)
strictly before invoking `syncFromBackupToPrimary`, so ONLINE is
observable before the replay; moreover the replay's selection query can
never return a row. -/
theorem c5_online_before_replay_counterexample :
    reconnectionAttemptTrace true =
      [.closeBackup, .openPrimary, .applySchema, .markOnline, .replayPending] ∧
    (reconnectionAttemptTrace true).findIdx (fun e => e == ReconnectEvent.markOnline) <
      (reconnectionAttemptTrace true).findIdx (fun e => e == ReconnectEvent.replayPending) := by
  constructor
  · rfl
  · decide

/-- C5 (amended): a successful reconnection closes the backup, opens the
primary, marks the state ONLINE, and only afterwards calls the replay
step — and that replay (`syncFromBackupToPrimary`) selects no pending
rows at all, so nothing accumulated offline is actually replayed. -/
theorem c5_reconnect_order_amended :
    (reconnectionAttemptTrace true).findIdx (fun e => e == ReconnectEvent.closeBackup) <
      (reconnectionAttemptTrace true).findIdx (fun e => e == ReconnectEvent.openPrimary) ∧
    (reconnectionAttemptTrace true).findIdx (fun e => e == ReconnectEvent.openPrimary) <
      (reconnectionAttemptTrace true).findIdx (fun e => e == ReconnectEvent.markOnline) ∧
    (reconnectionAttemptTrace true).findIdx (fun e => e == ReconnectEvent.markOnline) <
      (reconnectionAttemptTrace true).findIdx (fun e => e == ReconnectEvent.replayPending) ∧
    ReconnectEvent.replayPending ∉ reconnectionAttemptTrace false ∧
    ∀ vs : List VendaRow, syncBackupSelected vs = [] :=
  ⟨by decide, by decide, by decide, by decide, syncBackupSelected_nil⟩

theorem preCommit_inserts (l : List Produto) (more : List CacheDbEvent) :
    ((l.map CacheDbEvent.insertProduto) ++ (CacheDbEvent.commitTx :: more)).takeWhile
        (fun e => !(e == CacheDbEvent.commitTx)) = l.map CacheDbEvent.insertProduto := by
  induction l with
  | nil => simp [List.takeWhile_cons]
  | cons p t ih => simp [List.takeWhile_cons, ih]

/-- C9: the claim says `syncProdutos` updates the last-sync metadata in
the same transaction as the row replacement.  In the code the COMMIT
happens first and `updateSyncTime` runs afterwards as a separate
statement: in the concrete trace for an empty product list, COMMIT occurs
at an earlier index than the metadata update, which is not among the
in-transaction events. -/
theorem c9_metadata_outside_tx_counterexample :
    CacheDbEvent.runUpdateSyncTime ∉ preCommitEvents (syncProdutosTrace []) ∧
    (syncProdutosTrace []).findIdx (fun e => e == CacheDbEvent.commitTx) <
      (syncProdutosTrace []).findIdx (fun e => e == CacheDbEvent.runUpdateSyncTime) := by
  constructor
  · decide
  · decide

/-- C9 (amended): every successful `syncProdutos` run performs the
`last_sync_time` update strictly after COMMIT, outside the replacement
transaction (the update and the sync-log insert are separate statements
that can fail without undoing the committed row replacement). -/
theorem c9_metadata_after_commit_amended (ps : List Produto) :
    CacheDbEvent.runUpdateSyncTime ∉ preCommitEvents (syncProdutosTrace ps) ∧
    CacheDbEvent.runUpdateSyncTime ∈ syncProdutosTrace ps ∧
    CacheDbEvent.commitTx ∈ syncProdutosTrace ps := by
  refine ⟨?_, ?_, ?_⟩
  · unfold preCommitEvents syncProdutosTrace
    rw [show ([CacheDbEvent.beginTx, CacheDbEvent.deleteAllProdutos]
          ++ ps.map CacheDbEvent.insertProduto
          ++ [CacheDbEvent.commitTx, CacheDbEvent.runUpdateSyncTime,
              CacheDbEvent.insertSyncLog "PRODUTOS" "SUCCESS"])
        = CacheDbEvent.beginTx :: CacheDbEvent.deleteAllProdutos ::
          (ps.map CacheDbEvent.insertProduto
            ++ (CacheDbEvent.commitTx :: [CacheDbEvent.runUpdateSyncTime,
                CacheDbEvent.insertSyncLog "PRODUTOS" "SUCCESS"])) by simp]
    rw [List.takeWhile_cons, List.takeWhile_cons]
    simp [preCommit_inserts]
  · simp [syncProdutosTrace]
  · simp [syncProdutosTrace]

theorem lastQueuedData_add (d : QueuedData) (q : List PendingSale) :
    lastQueuedData (addPendingSale d q) = some d := by
  unfold lastQueuedData addPendingSale
  rw [List.getLast?_concat]
  rfl

/-- C10: the claim says each queued sale carries a terminal-generated
unique identifier included in its submission.  Queueing the same sale
twice yields two distinct queue rows (local ids 1 and 2) whose submitted
`venda_data` are byte-for-byte identical: nothing in the submission
distinguishes the retry from a new sale. -/
theorem c10_duplicate_payload_counterexample :
    exQueue10.map (fun s => s.id) = [1, 2] ∧
    exQueue10.map (fun s => s.venda_data) = [.payload exPayload10, .payload exPayload10] := by
  constructor <;> simp [exQueue10, addPendingSale, nextPendingId]

/-- C10 (amended): a queued sale's submission is exactly the prepared
payload (totals, payment data, caixa id and items); it contains no
terminal-generated per-sale identifier, so the data submitted for a sale
is a pure function of the caixa and the items, identical across any two
enqueueings. -/
theorem c10_no_idempotency_key_amended (caixa : String) (items : List ItemVenda)
    (q₁ q₂ : List PendingSale) :
    lastQueuedData (addPendingSale (.payload (mkSalePayload caixa items)) q₁) =
      lastQueuedData (addPendingSale (.payload (mkSalePayload caixa items)) q₂) ∧
    lastQueuedData (addPendingSale (.payload (mkSalePayload caixa items)) q₁) =
      some (.payload (mkSalePayload caixa items)) :=
  ⟨(lastQueuedData_add _ q₁).trans (lastQueuedData_add _ q₂).symm, lastQueuedData_add _ q₁⟩

/-- C6: the claim says `forceSync` returns true only if both the forced
catalog pull and the pending-sale push succeed.  With a pull endpoint
that succeeds and a push endpoint that fails, the pending sale is marked
ERRO (its push failed) yet `forceSync` still returns `true`. -/
theorem c6_forceSync_counterexample :
    (forceSync exApi6 exPostFail "2026-02-01" exSt6).1 = true ∧
    ((forceSync exApi6 exPostFail "2026-02-01" exSt6).2.cache.vendas_pendentes.map
        (fun s => s.status)) = [.erro] ∧
    ((forceSync exApi6 exPostFail "2026-02-01" exSt6).2.cache.vendas_pendentes.map
        (fun s => s.tentativas)) = [1] := by
  refine ⟨rfl, ?_, ?_⟩ <;>
    simp [forceSync, syncProducts, syncProdutos, syncPendingSales, getPendingSales,
          markSaleAsError, exApi6, exPostFail, exSt6]

/-- C6 (amended): `forceSync` returns exactly the boolean produced by the
forced catalog pull (`syncProducts(true)`); the pending-sale push runs
afterwards but its outcome never influences the returned value — in
particular a successful pull makes `forceSync` return true regardless of
push failures. -/
theorem c6_forceSync_amended (api : Option String → ApiResponse (List Produto))
    (post : QueuedData → ApiResponse Venda) (now : String) (st : PdvState) :
    (forceSync api post now st).1 = (syncProducts true api now st).1 ∧
    (forceSync api post now st).2 = syncPendingSales post (syncProducts true api now st).2 ∧
    ((api none).success = true → ((api none).data).isSome = true →
      (forceSync api post now st).1 = true) := by
  refine ⟨rfl, rfl, ?_⟩
  intro h1 h2
  obtain ⟨ps, hps⟩ := Option.isSome_iff_exists.mp h2
  simp [forceSync, syncProducts, h1, hps]

/-- C6 (amended) at a concrete input: pull succeeds, so the result equals
the pull's boolean and is true. -/
theorem c6_forceSync_amended_witness :
    (forceSync exApi6 exPostFail "t" exSt6).1 = (syncProducts true exApi6 "t" exSt6).1 ∧
    (forceSync exApi6 exPostFail "t" exSt6).1 = true :=
  ⟨(c6_forceSync_amended exApi6 exPostFail "t" exSt6).1,
   (c6_forceSync_amended exApi6 exPostFail "t" exSt6).2.2 rfl rfl⟩

/-- C7: the claim says `findProduct` is served from the local cache only
and the remote authority is never consulted.  With an empty cache and the
terminal online, the lookup answers with the remote API's product even
though the cache lookup misses. -/
theorem c7_remote_fallback_counterexample :
    findProductByCode "999" exStOnlineEmpty.cache.cache_produtos = none ∧
    pdvFindProductByCode "999" exApi7 exStOnlineEmpty = some exProdApi := by
  constructor <;>
    simp [pdvFindProductByCode, findProductByCode, exStOnlineEmpty, exApi7]

/-- C7 (amended): the cache is consulted first and a cache hit (matching
either natural key, inactive products excluded) is always served from the
cache; only on a cache miss while online is the remote API consulted as a
fallback, and an offline miss returns not-found without any remote
call. -/
theorem c7_cache_first_amended (codigo : String) (api : String → ApiResponse Produto)
    (st : PdvState) :
    (∀ p, findProductByCode codigo st.cache.cache_produtos = some p →
      pdvFindProductByCode codigo api st = some p ∧
      (p.codigo = codigo ∨ p.ean13 = some codigo) ∧ p.ativo = true) ∧
    (st.isOnline = false →
      pdvFindProductByCode codigo api st = findProductByCode codigo st.cache.cache_produtos) := by
  constructor
  · intro p hp
    have hm : matchesCode codigo p = true := List.find?_some hp
    have hm' := hm
    simp only [matchesCode, Bool.and_eq_true, Bool.or_eq_true, beq_iff_eq] at hm'
    refine ⟨?_, hm'.1, hm'.2⟩
    simp [pdvFindProductByCode, hp]
  · intro hoff
    cases hp : findProductByCode codigo st.cache.cache_produtos with
    | some p => simp [pdvFindProductByCode, hp]
    | none => simp [pdvFindProductByCode, hp, hoff]

/-- C7 (amended) at concrete inputs: a cache hit is served from the cache
with the natural-key/active guarantees, and an offline miss equals the
bare cache lookup. -/
theorem c7_cache_first_amended_witness :
    (pdvFindProductByCode "123456789" exApi7 exStCache = some exProdFeijao ∧
      (exProdFeijao.codigo = "123456789" ∨ exProdFeijao.ean13 = some "123456789") ∧
      exProdFeijao.ativo = true) ∧
    pdvFindProductByCode "0" exApi7 exStOffline =
      findProductByCode "0" exStOffline.cache.cache_produtos :=
  ⟨(c7_cache_first_amended "123456789" exApi7 exStCache).1 exProdFeijao
      (by simp [findProductByCode, matchesCode, exStCache, exProdFeijao]),
   (c7_cache_first_amended "0" exApi7 exStOffline).2 rfl⟩

theorem foldl_append_eq {α : Type} (l : List α) :
    ∀ acc : List α, l.foldl (fun a x => a ++ [x]) acc = acc ++ l := by
  induction l with
  | nil => intro acc; simp
  | cons x t ih => intro acc; simp [List.foldl_cons, ih]

/-- C4: a successful product sync always fully replaces the cache:
whatever was cached before, `syncProdutos` leaves exactly the response's
products, so any previously cached product absent from the response is
gone — also when the response was requested incrementally with the stored
`ultimaSync` timestamp and `force = false`. -/
theorem c4_sync_full_replace (api : Option String → ApiResponse (List Produto))
    (now t : String) (st : PdvState) (ps : List Produto)
    (hls : st.cache.lastSyncTime = some t)
    (hapi : api (some t) = ⟨true, some ps, none⟩) :
    (syncProducts false api now st).1 = true ∧
    (syncProducts false api now st).2.cache.cache_produtos = ps ∧
    ∀ p ∈ st.cache.cache_produtos, p ∉ ps →
      p ∉ (syncProducts false api now st).2.cache.cache_produtos := by
  have hcache : (syncProducts false api now st).2.cache.cache_produtos = ps := by
    simp [syncProducts, hls, hapi, syncProdutos, foldl_append_eq]
  refine ⟨?_, hcache, ?_⟩
  · simp [syncProducts, hls, hapi]
  · intro p _ hnp
    rw [hcache]
    exact hnp

/-- C4 at a concrete input: an incremental (non-forced) sync whose delta
response omits the previously cached product removes it from the cache. -/
theorem c4_sync_full_replace_witness :
    exSt4.cache.lastSyncTime = some "2026-01-01" ∧
    ((syncProducts false exApi4 "2026-02-01" exSt4).1 = true ∧
     (syncProducts false exApi4 "2026-02-01" exSt4).2.cache.cache_produtos = [exProdNovo] ∧
     ∀ p ∈ exSt4.cache.cache_produtos, p ∉ [exProdNovo] →
       p ∉ (syncProducts false exApi4 "2026-02-01" exSt4).2.cache.cache_produtos) :=
  ⟨rfl, c4_sync_full_replace exApi4 "2026-02-01" "2026-01-01" exSt4 [exProdNovo] rfl rfl⟩

/-- C8: a createSale request that fails validation (empty item list, item
with falsy fields, unknown product, or insufficient stock) is rejected
with that validation error and the state — in particular the pending
queue — is returned unchanged: nothing is written and nothing is
enqueued. -/
theorem c8_validation_no_write (caixaId : String) (nowMs : Nat)
    (api : String → ApiResponse Produto) (post : QueuedData → ApiResponse Venda)
    (items : List ItemVenda) (st : PdvState) :
    (items.isEmpty = true →
      psApiCreateSale caixaId nowMs api post items st = (.error .emptyItems, st)) ∧
    (∀ e, validateItemsApi api st items = .error e →
      psApiCreateSale caixaId nowMs api post items st = (.error e, st)) := by
  constructor
  · intro h
    simp [psApiCreateSale, h]
  · intro e he
    cases hi : items.isEmpty
    · simp [psApiCreateSale, hi, he]
    · rw [List.isEmpty_iff] at hi
      subst hi
      simp [validateItemsApi] at he

/-- C8 at concrete inputs: the empty sale, a malformed item and an
insufficient-stock item are each rejected with the validation error and
the state is returned untouched (no queue entry). -/
theorem c8_validation_no_write_witness :
    psApiCreateSale "CAIXA01" 0 exApi7 exPostFail [] exStOnlineEmpty =
      (.error .emptyItems, exStOnlineEmpty) ∧
    psApiCreateSale "CAIXA01" 0 exApi7 exPostFail [exItemSemCodigo] exStOnlineEmpty =
      (.error .invalidItem, exStOnlineEmpty) ∧
    psApiCreateSale "CAIXA01" 0 exApi7 exPostFail [exItemExcesso] exStCache =
      (.error (.insufficientStock "123456789"), exStCache) := by
  refine ⟨(c8_validation_no_write "CAIXA01" 0 exApi7 exPostFail [] exStOnlineEmpty).1 rfl,
    (c8_validation_no_write "CAIXA01" 0 exApi7 exPostFail [exItemSemCodigo] exStOnlineEmpty).2
      .invalidItem ?_,
    (c8_validation_no_write "CAIXA01" 0 exApi7 exPostFail [exItemExcesso] exStCache).2
      (.insufficientStock "123456789") ?_⟩
  · simp [validateItemsApi, itemTruthy, exItemSemCodigo]
  · have ht : jsTrim "123456789" = "123456789" := by decide
    have h1 : (("123456789" : String) = "") = False := eq_false (by decide)
    norm_num [validateItemsApi, itemTruthy, exItemExcesso, ht, h1, pdvFindProductByCode,
      findProductByCode, matchesCode, exStCache, exProdFeijao, List.find?]

theorem soldQty_cons (pid a : Nat) (q : ℚ) (t : List (Nat × ℚ)) :
    soldQty pid ((a, q) :: t) = (if a = pid then q else 0) + soldQty pid t := by
  by_cases h : a = pid <;> simp [soldQty, List.filter_cons, h]

theorem foldTrigger_map (its : List ProcessedItem) : ∀ ps : List Produto,
    foldTrigger its ps =
      ps.map (fun p => { p with estoque := p.estoque - soldQty p.id (itemPairs its) }) := by
  induction its with
  | nil =>
    intro ps
    have h0 : (fun p : Produto =>
        { p with estoque := p.estoque - soldQty p.id (itemPairs []) }) = fun p => p := by
      funext p
      simp [itemPairs, soldQty]
    simp [foldTrigger, h0]
  | cons it rest ih =>
    intro ps
    have h1 : foldTrigger (it :: rest) ps
        = foldTrigger rest (applyTrigger it.produto_id it.quantidade ps) := rfl
    rw [h1, ih, applyTrigger, List.map_map]
    have h2 : ((fun p : Produto => { p with estoque := p.estoque - soldQty p.id (itemPairs rest) })
          ∘ (fun p : Produto =>
              if p.id = it.produto_id then { p with estoque := p.estoque - it.quantidade } else p))
        = fun p : Produto =>
            { p with estoque := p.estoque - soldQty p.id (itemPairs (it :: rest)) } := by
      funext p
      have hpairs : itemPairs (it :: rest)
          = (it.produto_id, it.quantidade) :: itemPairs rest := rfl
      by_cases h : p.id = it.produto_id
      · simp only [Function.comp, if_pos h, hpairs, soldQty_cons, if_pos h.symm]
        simp [sub_sub]
      · have h' : it.produto_id ≠ p.id := fun hc => h hc.symm
        simp only [Function.comp, if_neg h, hpairs, soldQty_cons, if_neg h']
        simp
    rw [h2]

theorem insertVendaItems_spec (vid : Nat) : ∀ (its : List ProcessedItem)
    (ps ps' : List Produto) (lines : List VendaItem),
    insertVendaItems vid its ps = .ok (ps', lines) →
    ps' = foldTrigger its ps ∧
    linePairs lines = itemPairs its ∧
    (∀ l ∈ lines, l.subtotal = l.quantidade * l.preco_unitario ∧ l.venda_id = vid) ∧
    ((∀ p ∈ ps, 0 ≤ p.estoque) → ∀ p ∈ ps', 0 ≤ p.estoque) := by
  intro its
  induction its with
  | nil =>
    intro ps ps' lines h
    simp only [insertVendaItems] at h
    obtain ⟨hps, hlines⟩ := Prod.mk.injEq .. ▸ (Except.ok.inj h)
    subst hps
    subst hlines
    exact ⟨rfl, rfl, by simp, fun hp => hp⟩
  | cons it rest ih =>
    intro ps ps' lines h
    simp only [insertVendaItems] at h
    split at h
    · exact absurd h (by simp)
    · rename_i produto hfind
      split at h
      · rename_i hchecks
        split at h
        · rename_i htrig
          split at h
          · exact absurd h (by simp)
          · rename_i ps2 lines2 hrec
            obtain ⟨hps, hlines⟩ := Prod.mk.injEq .. ▸ (Except.ok.inj h)
            subst hps
            subst hlines
            obtain ⟨ih1, ih2, ih3, ih4⟩ :=
              ih (applyTrigger it.produto_id it.quantidade ps) ps2 lines2 hrec
            refine ⟨ih1, ?_, ?_, ?_⟩
            · simp [linePairs, itemPairs] at ih2 ⊢
              exact ih2
            · intro l hl
              rcases List.mem_cons.mp hl with rfl | hmem
              · exact ⟨rfl, rfl⟩
              · exact ih3 l hmem
            · intro hpos
              apply ih4
              intro p' hp'
              obtain ⟨p, hp, hpe⟩ := List.mem_map.mp hp'
              by_cases hid : p.id = it.produto_id
              · rw [← hpe, if_pos hid]
                exact htrig p hp hid
              · rw [← hpe, if_neg hid]
                exact hpos p hp
        · exact absurd h (by simp)
      · exact absurd h (by simp)

theorem processItems_spec (ps : List Produto) : ∀ (items : List ItemVenda)
    (pis : List ProcessedItem), processItems ps items = .ok pis →
    pis.map (fun it => (it.quantidade, it.preco_unitario)) =
      items.map (fun it => (it.quantidade, it.preco_unitario)) := by
  intro items
  induction items with
  | nil =>
    intro pis h
    simp only [processItems] at h
    rw [← Except.ok.inj h]
    rfl
  | cons it rest ih =>
    intro pis h
    simp only [processItems] at h
    split at h
    · exact absurd h (by simp)
    · split at h
      · exact absurd h (by simp)
      · rename_i produto hfind
        split at h
        · exact absurd h (by simp)
        · split at h
          · exact absurd h (by simp)
          · rename_i pis2 hrec
            rw [← Except.ok.inj h]
            simp only [List.map_cons]
            rw [ih pis2 hrec]

theorem processItems_insufficient (ps : List Produto) : ∀ items : List ItemVenda,
    (∀ it ∈ items, itemTruthy it = true ∧
      (findProductByCode (jsTrim it.codigo) ps).isSome = true) →
    (∃ it ∈ items, ∃ p, findProductByCode (jsTrim it.codigo) ps = some p ∧
      p.estoque < it.quantidade) →
    ∃ c, processItems ps items = .error (.insufficientStock c) := by
  intro items
  induction items with
  | nil =>
    intro _ hex
    simp at hex
  | cons it rest ih =>
    intro hwf hex
    have htruthy := (hwf it (List.mem_cons_self it rest)).1
    have hsome := (hwf it (List.mem_cons_self it rest)).2
    obtain ⟨p0, hp0⟩ := Option.isSome_iff_exists.mp hsome
    by_cases hs : p0.estoque < it.quantidade
    · exact ⟨it.codigo, by simp [processItems, htruthy, hp0, hs]⟩
    · obtain ⟨jt, hjt, pj, hpj, hlt⟩ := hex
      rcases List.mem_cons.mp hjt with rfl | hmem
      · rw [hp0] at hpj
        rw [Option.some.inj hpj] at hs
        exact absurd hlt hs
      · obtain ⟨c, hc⟩ := ih
          (fun x hx => hwf x (List.mem_cons_of_mem _ hx)) ⟨jt, hmem, pj, hpj, hlt⟩
        exact ⟨c, by simp [processItems, htruthy, hp0, hs, hc]⟩

theorem foldl_add_map {α : Type} (f : α → ℚ) : ∀ (l : List α) (init : ℚ),
    l.foldl (fun s x => s + f x) init = init + (l.map f).sum := by
  intro l
  induction l with
  | nil => intro init; simp
  | cons a t ih => intro init; simp [List.foldl_cons, ih, add_assoc]

theorem dbCreateSale_inv (caixaId : String) (onl : Bool) (st : DbState)
    (pis : List ProcessedItem) (v : Venda) (st' : DbState)
    (h : dbCreateSale caixaId onl st pis = (.ok v, st')) :
    ∃ ps' lines,
      insertVendaItems (nextVendaId st.vendas) pis st.produtos = .ok (ps', lines) ∧
      v = ⟨nextVendaId st.vendas, nextNumeroVenda st.vendas,
           pis.foldl (fun sum it => sum + it.quantidade * it.preco_unitario) 0, 0,
           pis.foldl (fun sum it => sum + it.quantidade * it.preco_unitario) 0,
           "DINHEIRO", "FINALIZADA", caixaId, onl, lines⟩ ∧
      st' = ⟨ps', st.vendas ++ [vendaRowOf v], st.venda_items ++ lines⟩ := by
  simp only [dbCreateSale] at h
  split at h
  · split at h
    · exact absurd h (by simp)
    · rename_i ps' lines hins
      obtain ⟨hv, hst⟩ := Prod.mk.injEq .. ▸ h
      refine ⟨ps', lines, hins, (Except.ok.inj hv).symm, ?_⟩
      rw [← hst, ← Except.ok.inj hv]
  · exact absurd h (by simp)

theorem dbCreateSale_error_state (caixaId : String) (onl : Bool) (st : DbState)
    (pis : List ProcessedItem) (r : Except VendaError Venda × DbState) (e : VendaError)
    (heq : dbCreateSale caixaId onl st pis = r) (he : r.1 = .error e) : r.2 = st := by
  simp only [dbCreateSale] at heq
  split at heq
  · split at heq
    · subst heq; rfl
    · subst heq; simp at he
  · subst heq; rfl

theorem psDbCreateSale_inv (caixaId : String) (onl : Bool) (st : DbState)
    (items : List ItemVenda) (v : Venda) (st' : DbState)
    (h : psDbCreateSale caixaId onl st items = (.ok v, st')) :
    ∃ pis, processItems st.produtos items = .ok pis ∧
      dbCreateSale caixaId onl st pis = (.ok v, st') := by
  simp only [psDbCreateSale] at h
  split at h
  · exact absurd h (by simp)
  · split at h
    · exact absurd h (by simp)
    · rename_i pis hpis
      exact ⟨pis, hpis, h⟩

theorem psDbCreateSale_error_state (caixaId : String) (onl : Bool) (st : DbState)
    (items : List ItemVenda) (r : Except VendaError Venda × DbState) (e : VendaError)
    (heq : psDbCreateSale caixaId onl st items = r) (he : r.1 = .error e) : r.2 = st := by
  simp only [psDbCreateSale] at heq
  split at heq
  · subst heq; rfl
  · split at heq
    · subst heq; rfl
    · exact dbCreateSale_error_state caixaId onl st _ r e heq he

/-- C1 (amended): a successful `createSale` produces a sale with
`total = subtotal = Σ quantidade * preco_unitario` over the request's
items, and every stored line's `subtotal` equals its
`quantidade * preco_unitario` — all computed exactly, with no rounding of
any kind applied. -/
theorem c1_totals_exact (caixaId : String) (onl : Bool) (st : DbState)
    (items : List ItemVenda) (v : Venda) (st' : DbState)
    (hok : psDbCreateSale caixaId onl st items = (.ok v, st')) :
    v.total = v.subtotal ∧
    v.subtotal = (items.map (fun it => it.quantidade * it.preco_unitario)).sum ∧
    ∀ l ∈ v.items, l.subtotal = l.quantidade * l.preco_unitario := by
  obtain ⟨pis, hpis, hdb⟩ := psDbCreateSale_inv caixaId onl st items v st' hok
  obtain ⟨ps', lines, hins, hv, hst'⟩ := dbCreateSale_inv caixaId onl st pis v st' hdb
  have hspec := insertVendaItems_spec (nextVendaId st.vendas) pis st.produtos ps' lines hins
  have hqp := processItems_spec st.produtos items pis hpis
  subst hv
  refine ⟨rfl, ?_, ?_⟩
  · show pis.foldl (fun sum it => sum + it.quantidade * it.preco_unitario) 0
        = (items.map fun it => it.quantidade * it.preco_unitario).sum
    rw [foldl_add_map (fun it => it.quantidade * it.preco_unitario) pis 0, zero_add]
    have hmul : pis.map (fun it => it.quantidade * it.preco_unitario)
        = items.map (fun it => it.quantidade * it.preco_unitario) := by
      have h2 := congrArg (List.map (fun pr : ℚ × ℚ => pr.1 * pr.2)) hqp
      simpa [List.map_map, Function.comp] using h2
    rw [hmul]
  · intro l hl
    exact (hspec.2.2.1 l hl).1

/-- C1 (amended) at a concrete input: selling 2 units at 8.50 yields
total = subtotal = 17 with exact line subtotals. -/
theorem c1_totals_exact_witness :
    psDbCreateSale "CAIXA01" true exDb1 [exItem2] = (.ok exVenda2, exDbAfter2) ∧
    (exVenda2.total = exVenda2.subtotal ∧
     exVenda2.subtotal = ([exItem2].map (fun it => it.quantidade * it.preco_unitario)).sum ∧
     ∀ l ∈ exVenda2.items, l.subtotal = l.quantidade * l.preco_unitario) := by
  have ht : jsTrim "123456789" = "123456789" := by decide
  have h1 : (("123456789" : String) = "") = False := eq_false (by decide)
  have hrun : psDbCreateSale "CAIXA01" true exDb1 [exItem2] = (.ok exVenda2, exDbAfter2) := by
    norm_num [psDbCreateSale, processItems, dbCreateSale, insertVendaItems, applyTrigger,
      nextVendaId, nextNumeroVenda, vendaRowOf, exDb1, exProdFeijao, exItem2, exVenda2,
      exDbAfter2, findProductByCode, matchesCode, itemTruthy, ht, h1, List.find?]
  exact ⟨hrun, c1_totals_exact "CAIXA01" true exDb1 [exItem2] exVenda2 exDbAfter2 hrun⟩

/-- C1: the claim additionally says the amounts are rounded to
currency-minor-unit precision.  Selling half a unit (quantidade is a
REAL column) at the cent-aligned price 0.05 produces a stored and
returned total of 0.025, which is not a whole number of cents: no
rounding happens anywhere in `createSale`. -/
theorem c1_rounding_counterexample :
    resultTotal (psDbCreateSale "CAIXA01" true exDb1 [exItemMeio]) = some (1/40) ∧
    IsCentMultiple exItemMeio.preco_unitario ∧
    ¬ IsCentMultiple (1/40) := by
  refine ⟨?_, ⟨5, by norm_num [exItemMeio]⟩, ?_⟩
  · have ht : jsTrim "123456789" = "123456789" := by decide
    have h1 : (("123456789" : String) = "") = False := eq_false (by decide)
    norm_num [resultTotal, psDbCreateSale, processItems, dbCreateSale, insertVendaItems,
      applyTrigger, nextVendaId, nextNumeroVenda, vendaRowOf, exDb1, exProdFeijao,
      exItemMeio, findProductByCode, matchesCode, itemTruthy, ht, h1, List.find?]
  · rintro ⟨n, hn⟩
    have h2 : (n : ℚ) * 2 = 5 := by
      field_simp at hn
      linarith
    have h3 : (n * 2 : ℤ) = 5 := by exact_mod_cast h2
    omega

/-- C2: (a) with well-formed items over known products, `createSale`
fails with the insufficient-stock error whenever some item's quantidade
exceeds its product's cached estoque, returning the store unchanged;
(b) any failure rolls the whole transaction back (state unchanged);
(c) a success appends exactly the sale row and its lines and decrements
each product's estoque by exactly the total quantidade sold of it
(via the `venda_item_estoque` trigger, inside the same transaction), and
stock stays non-negative. -/
theorem c2_createSale_stock (caixaId : String) (onl : Bool) (st : DbState)
    (items : List ItemVenda) (hpos : ∀ p ∈ st.produtos, 0 ≤ p.estoque) :
    ((∀ it ∈ items, itemTruthy it = true ∧
        (findProductByCode (jsTrim it.codigo) st.produtos).isSome = true) →
      (∃ it ∈ items, ∃ p, findProductByCode (jsTrim it.codigo) st.produtos = some p ∧
        p.estoque < it.quantidade) →
      ∃ c, psDbCreateSale caixaId onl st items = (.error (.insufficientStock c), st)) ∧
    (∀ e, (psDbCreateSale caixaId onl st items).1 = .error e →
      (psDbCreateSale caixaId onl st items).2 = st) ∧
    (∀ v st', psDbCreateSale caixaId onl st items = (.ok v, st') →
      st'.vendas = st.vendas ++ [vendaRowOf v] ∧
      st'.venda_items = st.venda_items ++ v.items ∧
      st'.produtos = st.produtos.map
        (fun p => { p with estoque := p.estoque - soldQty p.id (linePairs v.items) }) ∧
      ∀ p ∈ st'.produtos, 0 ≤ p.estoque) := by
  refine ⟨?_, ?_, ?_⟩
  · intro hwf hex
    obtain ⟨c, hc⟩ := processItems_insufficient st.produtos items hwf hex
    refine ⟨c, ?_⟩
    have hne : items.isEmpty = false := by
      obtain ⟨it, hmem, _⟩ := hex
      cases items with
      | nil => simp at hmem
      | cons a t => rfl
    simp [psDbCreateSale, hne, hc]
  · intro e he
    exact psDbCreateSale_error_state caixaId onl st items _ e rfl he
  · intro v st' hok
    obtain ⟨pis, hpis, hdb⟩ := psDbCreateSale_inv caixaId onl st items v st' hok
    obtain ⟨ps', lines, hins, hv, hst'⟩ := dbCreateSale_inv caixaId onl st pis v st' hdb
    have hspec := insertVendaItems_spec (nextVendaId st.vendas) pis st.produtos ps' lines hins
    subst hv
    subst hst'
    refine ⟨rfl, rfl, ?_, hspec.2.2.2 hpos⟩
    show ps' = _
    rw [hspec.1, foldTrigger_map]
    rw [← hspec.2.1]

/-- C2 at a concrete input: requesting 11 units against a cached stock of
10 yields the insufficient-stock rejection with the store unchanged. -/
theorem c2_createSale_stock_witness :
    (∀ p ∈ exDb1.produtos, 0 ≤ p.estoque) ∧
    (∃ c, psDbCreateSale "CAIXA01" true exDb1 [exItemExcesso] =
      (.error (.insufficientStock c), exDb1)) := by
  have ht : jsTrim "123456789" = "123456789" := by decide
  have hpos : ∀ p ∈ exDb1.produtos, 0 ≤ p.estoque := by
    intro p hp
    simp [exDb1] at hp
    subst hp
    norm_num [exProdFeijao]
  refine ⟨hpos, (c2_createSale_stock "CAIXA01" true exDb1 [exItemExcesso] hpos).1 ?_ ?_⟩
  · intro it hit
    simp [List.mem_singleton] at hit
    subst hit
    constructor
    · norm_num [itemTruthy, exItemExcesso]
      decide
    · simp [findProductByCode, matchesCode, exDb1, exProdFeijao, ht, exItemExcesso,
        List.find?]
  · refine ⟨exItemExcesso, by simp, exProdFeijao, ?_, by norm_num [exProdFeijao, exItemExcesso]⟩
    simp [findProductByCode, matchesCode, exDb1, exProdFeijao, ht, exItemExcesso, List.find?]
